import Mathlib

/-!
Verification of the galactic-agent specification against a shallow
embedding of the Go sources (src/galactic-agent, src/unnamed).

Machine integers are modelled as Nat with explicit bounds; IPv6
addresses are 128-bit Nat values; text is modelled as List Char.
Functions of the galactic-common helper library, which is a dependency
of the agent and not shipped under src/, are modelled from the
specification text and carry a doc comment saying so.
-/

namespace Galactic

/-! ## Hex digits -/

/-- Lookup table for lowercase hexadecimal digits, pairing each digit
character with its numeric value. -/
def hexPairs : List (Char × Nat) :=
  [('0', 0), ('1', 1), ('2', 2), ('3', 3), ('4', 4), ('5', 5), ('6', 6),
   ('7', 7), ('8', 8), ('9', 9), ('a', 10), ('b', 11), ('c', 12),
   ('d', 13), ('e', 14), ('f', 15)]

/-- A character is a valid lowercase hex digit when it appears in the
digit table. -/
def isHexLower (c : Char) : Bool :=
  (hexPairs.lookup c).isSome

/-- Numeric value of a lowercase hex digit, defaulting to 0 off the table. -/
def hexDigitVal (c : Char) : Nat :=
  (hexPairs.lookup c).getD 0

/-- Character for a nibble value. -/
def hexDigitChar (n : Nat) : Char :=
  match n with
  | 0 => '0' | 1 => '1' | 2 => '2' | 3 => '3' | 4 => '4' | 5 => '5'
  | 6 => '6' | 7 => '7' | 8 => '8' | 9 => '9' | 10 => 'a' | 11 => 'b'
  | 12 => 'c' | 13 => 'd' | 14 => 'e' | _ => 'f'

theorem lookup_mem_of_eq_some {c : Char} {v : Nat} :
    ∀ ps : List (Char × Nat), ps.lookup c = some v → (c, v) ∈ ps := by
  intro ps
  induction ps with
  | nil => intro h; simp [List.lookup] at h
  | cons p ps ih =>
    intro h
    simp only [List.lookup] at h
    split at h
    · rename_i hc
      injection h with hv
      have hc1 : c = p.1 := beq_iff_eq.mp hc
      rw [hc1, ← hv]
      simp
    · rename_i hc
      exact List.mem_cons_of_mem p (ih h)

theorem hexDigitChar_hexDigitVal {c : Char} (h : isHexLower c = true) :
    hexDigitChar (hexDigitVal c) = c := by
  unfold isHexLower at h
  cases hl : hexPairs.lookup c with
  | none => rw [hl] at h; simp at h
  | some v =>
    have hmem := lookup_mem_of_eq_some hexPairs hl
    unfold hexDigitVal
    rw [hl]
    simp only [Option.getD_some]
    fin_cases hmem <;> rfl

theorem hexDigitVal_lt {c : Char} (h : isHexLower c = true) :
    hexDigitVal c < 16 := by
  unfold isHexLower at h
  cases hl : hexPairs.lookup c with
  | none => rw [hl] at h; simp at h
  | some v =>
    have hmem := lookup_mem_of_eq_some hexPairs hl
    unfold hexDigitVal
    rw [hl]
    simp only [Option.getD_some]
    fin_cases hmem <;> decide

/-! ## Fixed-width hex text -/

/-- Value of a little-endian (least significant digit first) list of hex
digit characters. -/
def hexValLE : List Char → Nat
  | [] => 0
  | c :: cs => hexDigitVal c + 16 * hexValLE cs

/-- Little-endian fixed-width rendering of a Nat in hex digits. -/
def natToHexLE : Nat → Nat → List Char
  | _, 0 => []
  | n, w + 1 => hexDigitChar (n % 16) :: natToHexLE (n / 16) w

/-- Big-endian fixed-width rendering: most significant digit first,
leading zeros preserved. -/
def natToHex (n w : Nat) : List Char :=
  (natToHexLE n w).reverse

/-- Big-endian hex text parser; fails on any character outside the
lowercase digit table. -/
def hexVal? : List Char → Option Nat
  | [] => some 0
  | c :: cs =>
    match hexPairs.lookup c, hexVal? cs with
    | some d, some v => some (d * 16 ^ cs.length + v)
    | _, _ => none

theorem hexValLE_lt : ∀ ds : List Char, (∀ c ∈ ds, isHexLower c = true) →
    hexValLE ds < 16 ^ ds.length := by
  intro ds
  induction ds with
  | nil => intro _; simp [hexValLE]
  | cons c cs ih =>
    intro h
    have hc : hexDigitVal c < 16 := hexDigitVal_lt (h c (by simp))
    have hcs : hexValLE cs < 16 ^ cs.length := ih (fun x hx => h x (by simp [hx]))
    simp only [hexValLE, List.length_cons, pow_succ]
    calc hexDigitVal c + 16 * hexValLE cs
        < 16 + 16 * hexValLE cs := by omega
      _ ≤ 16 * (hexValLE cs + 1) := by ring_nf; omega
      _ ≤ 16 * 16 ^ cs.length := by
          have : hexValLE cs + 1 ≤ 16 ^ cs.length := hcs
          exact Nat.mul_le_mul_left 16 this
      _ = 16 ^ cs.length * 16 := by ring

theorem natToHexLE_hexValLE : ∀ ds : List Char,
    (∀ c ∈ ds, isHexLower c = true) →
    natToHexLE (hexValLE ds) ds.length = ds := by
  intro ds
  induction ds with
  | nil => intro _; rfl
  | cons c cs ih =>
    intro h
    have hc : hexDigitVal c < 16 := hexDigitVal_lt (h c (by simp))
    have hmod : (hexDigitVal c + 16 * hexValLE cs) % 16 = hexDigitVal c := by
      omega
    have hdiv : (hexDigitVal c + 16 * hexValLE cs) / 16 = hexValLE cs := by
      omega
    simp only [hexValLE, List.length_cons, natToHexLE, hmod, hdiv]
    rw [hexDigitChar_hexDigitVal (h c (by simp)), ih (fun x hx => h x (by simp [hx]))]

theorem hexValLE_append (xs : List Char) (c : Char) :
    hexValLE (xs ++ [c]) = hexValLE xs + 16 ^ xs.length * hexDigitVal c := by
  induction xs with
  | nil => simp [hexValLE]
  | cons x xs ih =>
    simp only [List.cons_append, hexValLE, List.length_cons, pow_succ,
      List.append_eq]
    rw [ih]
    ring

theorem hexVal?_eq_hexValLE_reverse : ∀ cs : List Char,
    (∀ c ∈ cs, isHexLower c = true) →
    hexVal? cs = some (hexValLE cs.reverse) := by
  intro cs
  induction cs with
  | nil => intro _; rfl
  | cons c cs ih =>
    intro h
    have hc : isHexLower c = true := h c (by simp)
    unfold isHexLower at hc
    cases hl : hexPairs.lookup c with
    | none => rw [hl] at hc; simp at hc
    | some d =>
      have hd : hexDigitVal c = d := by unfold hexDigitVal; rw [hl]; rfl
      have htail := ih (fun x hx => h x (by simp [hx]))
      simp only [hexVal?, hl, htail, List.reverse_cons, hexValLE_append,
        List.length_reverse, hd]
      congr 1
      ring

/-- Big-endian round trip: a valid fixed-width lowercase hex string parses
to a value that renders back to the identical string, leading zeros
included. -/
theorem hexVal?_natToHex (cs : List Char) (h : ∀ c ∈ cs, isHexLower c = true) :
    ∃ v, hexVal? cs = some v ∧ v < 16 ^ cs.length ∧ natToHex v cs.length = cs := by
  refine ⟨hexValLE cs.reverse, hexVal?_eq_hexValLE_reverse cs h, ?_, ?_⟩
  · have := hexValLE_lt cs.reverse (fun c hc => h c (List.mem_reverse.mp hc))
    simpa using this
  · unfold natToHex
    have hrev : ∀ c ∈ cs.reverse, isHexLower c = true :=
      fun c hc => h c (List.mem_reverse.mp hc)
    have h2 := natToHexLE_hexValLE cs.reverse hrev
    rw [List.length_reverse] at h2
    rw [h2, List.reverse_reverse]

/-! ## SRv6 endpoint codec

The codec lives in the galactic-common helper library
(util.EncodeSRv6Endpoint, util.DecodeSRv6Endpoint), a dependency of the
agent that is not shipped under src/. Both functions are modelled from
the specification. -/

/-- Modelled from the spec: util.EncodeSRv6Endpoint of galactic-common
(missing from src/). The base prefix is given as its 128-bit address
value together with its length. The result is the 128-bit address
holding the top baseLen bits of the base, zero padding down to bit 64,
then vpc (48 bits) and attachment (16 bits); the Go function renders
this value as IPv6 text. Fails when the base prefix is longer than 64
bits (InvalidBasePfx) or an identifier is malformed hex or exceeds its
width of 12 or 4 nibbles (InvalidIdentifier). -/
def EncodeSRv6Endpoint (base baseLen : Nat) (vpcHex attachHex : List Char) :
    Option Nat :=
  if 64 < baseLen then none
  else if 12 < vpcHex.length then none
  else if 4 < attachHex.length then none
  else
    match hexVal? vpcHex, hexVal? attachHex with
    | some v, some a =>
      some (base / 2 ^ (128 - baseLen) * 2 ^ (64 - baseLen) * 2 ^ 64 +
        v * 2 ^ 16 + a)
    | _, _ => none

/-- Modelled from the spec: util.DecodeSRv6Endpoint of galactic-common
(missing from src/). Extracts the lower 64 bits of the address
regardless of the base prefix and returns the vpc as 12 lowercase hex
nibbles and the attachment as 4, leading zeros preserved. Total on
128-bit addresses. -/
def DecodeSRv6Endpoint (addr : Nat) : List Char × List Char :=
  (natToHex (addr % 2 ^ 64 / 2 ^ 16) 12, natToHex (addr % 2 ^ 64 % 2 ^ 16) 4)

/-- C1: for every base prefix of length at most 64 and every valid
12-nibble vpc hex string and 4-nibble attachment hex string, decoding
the encoded endpoint address returns exactly the original pair, leading
zeros included. -/
theorem c1_encode_decode_roundtrip (base baseLen : Nat)
    (vpcHex attachHex : List Char)
    (hlen : baseLen ≤ 64)
    (hv12 : vpcHex.length = 12) (hvhex : ∀ c ∈ vpcHex, isHexLower c = true)
    (ha4 : attachHex.length = 4) (hahex : ∀ c ∈ attachHex, isHexLower c = true) :
    ∃ addr, EncodeSRv6Endpoint base baseLen vpcHex attachHex = some addr ∧
      DecodeSRv6Endpoint addr = (vpcHex, attachHex) := by
  obtain ⟨v, hv, hvlt, hvback⟩ := hexVal?_natToHex vpcHex hvhex
  obtain ⟨a, ha, halt, haback⟩ := hexVal?_natToHex attachHex hahex
  rw [hv12] at hvlt hvback
  rw [ha4] at halt haback
  have hvlt2 : v < 281474976710656 := by norm_num at hvlt; exact hvlt
  have halt2 : a < 65536 := by norm_num at halt; exact halt
  refine ⟨base / 2 ^ (128 - baseLen) * 2 ^ (64 - baseLen) * 2 ^ 64 +
    v * 2 ^ 16 + a, ?_, ?_⟩
  · unfold EncodeSRv6Endpoint
    rw [if_neg (by omega), if_neg (by omega), if_neg (by omega), hv, ha]
  · have e16 : (2 : Nat) ^ 16 = 65536 := by norm_num
    have e64 : (2 : Nat) ^ 64 = 18446744073709551616 := by norm_num
    have hmod : (base / 2 ^ (128 - baseLen) * 2 ^ (64 - baseLen) * 2 ^ 64 +
        v * 2 ^ 16 + a) % 2 ^ 64 = v * 2 ^ 16 + a := by
      rw [e16, e64]
      omega
    have hdiv : (v * 2 ^ 16 + a) / 2 ^ 16 = v := by
      rw [e16]
      omega
    have hmod2 : (v * 2 ^ 16 + a) % 2 ^ 16 = a := by
      rw [e16]
      omega
    unfold DecodeSRv6Endpoint
    rw [hmod, hdiv, hmod2, hvback, haback]

/-- C1 witness: the spec scenario, base fc00::/56 (address value
0xfc00 shifted into the top 16 bits), vpc 000000000001, attachment
0001, round-trips concretely. -/
theorem c1_encode_decode_roundtrip_witness :
    ∃ addr, EncodeSRv6Endpoint (64512 * 2 ^ 112) 56
        ['0', '0', '0', '0', '0', '0', '0', '0', '0', '0', '0', '1']
        ['0', '0', '0', '1'] = some addr ∧
      DecodeSRv6Endpoint addr =
        (['0', '0', '0', '0', '0', '0', '0', '0', '0', '0', '0', '1'],
         ['0', '0', '0', '1']) :=
  c1_encode_decode_roundtrip (64512 * 2 ^ 112) 56 _ _
    (by decide) (by decide) (by decide) (by decide) (by decide)

/-! ## Base-62 identifiers and derived kernel object names -/

/-- Alphabet of the base-62 encoding in digit order. -/
def base62Digits : List Char :=
  ("0123456789" ++ "ABCDEFGHIJKLMNOPQRSTUVWXYZ" ++
    "abcdefghijklmnopqrstuvwxyz").toList

/-- Digit character for a base-62 value. -/
def base62Char (n : Nat) : Char :=
  base62Digits.getD n '0'

/-- Fuelled digit loop for rendering base-62; the fuel bounds the digit
count and n itself is always enough fuel. -/
def natToBase62Go (fuel : Nat) (n : Nat) (acc : List Char) : List Char :=
  match fuel with
  | 0 => acc
  | fuel + 1 =>
    if n = 0 then acc
    else natToBase62Go fuel (n / 62) (base62Char (n % 62) :: acc)

/-- Big-endian minimal base-62 rendering of a Nat. -/
def natToBase62 (n : Nat) : List Char :=
  if n = 0 then ['0'] else natToBase62Go n n []

/-- Modelled from the spec: util.HexToBase62 of galactic-common (missing
from src/): treats the hex text as an unsigned integer and renders it
big-endian in the 62-character alphabet; fails on malformed hex. -/
def HexToBase62 (s : List Char) : Option (List Char) :=
  (hexVal? s).map natToBase62

/-- Left pad with the zero digit to a fixed width. -/
def padZero (w : Nat) (s : List Char) : List Char :=
  List.replicate (w - s.length) '0' ++ s

/-- Modelled from the spec: util.GenerateInterfaceNameHost of
galactic-common (missing from src/): a fixed-format string from a
literal prefix, the base-62 vpc, the base-62 attachment and a literal
suffix; widths and literals follow the device names shown in the lab
tutorial. -/
def GenerateInterfaceNameHost (vpc att : List Char) : List Char :=
  'G' :: (padZero 9 vpc ++ padZero 3 att ++ ['H'])

/-- Modelled from the spec: the VRF device name, a second fixed-format
string from the same identifier pair (galactic-common, missing from
src/). -/
def GenerateInterfaceNameVRF (vpc att : List Char) : List Char :=
  'G' :: (padZero 9 vpc ++ padZero 3 att ++ ['V'])

/-! ## Kernel state and netlink model

The vishvananda/netlink calls made by the agent are modelled against an
explicit kernel state holding links, routes, neighbor entries and the
VRF device to table-id association. Results follow the Linux semantics
of the corresponding netlink messages. -/

inductive NlErr
  | enodev
  | esrch
  | eexist
  | enoent
  | enotable
deriving DecidableEq

structure Pfx where
  addr : Nat
  maskLen : Nat
  isV6 : Bool
deriving DecidableEq

inductive Encap
  | noEncap
  | seg6local (vrfTable : Nat)
  | seg6encap (segments : List Nat)
deriving DecidableEq

structure Route where
  table : Nat
  dst : Pfx
  linkIndex : Nat
  encap : Encap
deriving DecidableEq

structure Neigh where
  linkIndex : Nat
  ip : Nat
  state : Nat
  flags : Nat
deriving DecidableEq

structure Link where
  name : List Char
  index : Nat
deriving DecidableEq

structure KernelState where
  links : List Link
  routes : List Route
  neighs : List Neigh
  vrfTables : List (List Char × Nat)
deriving DecidableEq

/-- Neighbor state bit NUD_PERMANENT. -/
def NUD_PERMANENT : Nat := 128

/-- Neighbor flag bit NTF_PROXY. -/
def NTF_PROXY : Nat := 8

/-- The main routing table id used when a route sets no table. -/
def mainTable : Nat := 254

/-- Models netlink.LinkByName: resolves a device by name or reports the
device as missing. -/
def linkByName (st : KernelState) (name : List Char) : Except NlErr Link :=
  match st.links.find? (fun l => l.name == name) with
  | some l => .ok l
  | none => .error .enodev

/-- Kernel route identity: the kernel keys routes by table and
destination. -/
def sameKey (r s : Route) : Bool :=
  r.table == s.table && r.dst == s.dst

/-- Models netlink.RouteReplace: an NLM_F_REPLACE install that overwrites
any route with the same table and destination. -/
def routeReplace (st : KernelState) (r : Route) : KernelState :=
  { st with routes := r :: st.routes.filter (fun s => !sameKey r s) }

/-- Models netlink.RouteDel over Linux RTM_DELROUTE semantics: deleting a
route that is not present returns ESRCH, not success. -/
def routeDel (st : KernelState) (r : Route) : KernelState × Option NlErr :=
  if st.routes.any (fun s => sameKey r s) then
    ({ st with routes := st.routes.filter (fun s => !sameKey r s) }, none)
  else (st, some .esrch)

/-- Models netlink.NeighAdd, an NLM_F_CREATE with NLM_F_EXCL request:
fails with EEXIST when an entry for the same link and address exists. -/
def neighAdd (st : KernelState) (n : Neigh) : KernelState × Option NlErr :=
  if st.neighs.any (fun m => m.linkIndex == n.linkIndex && m.ip == n.ip) then
    (st, some .eexist)
  else ({ st with neighs := n :: st.neighs }, none)

/-- Models netlink.NeighDel over Linux RTM_DELNEIGH semantics: deleting
an absent entry returns ENOENT, not success. -/
def neighDel (st : KernelState) (n : Neigh) : KernelState × Option NlErr :=
  if st.neighs.any (fun m => m.linkIndex == n.linkIndex && m.ip == n.ip) then
    ({ st with neighs :=
        st.neighs.filter (fun m => !(m.linkIndex == n.linkIndex && m.ip == n.ip)) },
      none)
  else (st, some .enoent)

/-- Modelled from the spec: vrf.GetVRFIdForVPC of galactic-common
(missing from src/): looks up the VRF device whose name derives from the
pair and reads its routing table id from the link attributes. -/
def GetVRFIdForVPC (st : KernelState) (vpc att : List Char) : Except NlErr Nat :=
  match st.vrfTables.lookup (GenerateInterfaceNameVRF vpc att) with
  | some id => .ok id
  | none => .error .enotable

/-- Modelled from the spec: util.IsHost of galactic-common (missing from
src/): a prefix is a host prefix when its host-bit count is zero, an
IPv4 /32 or an IPv6 /128. -/
def IsHost (p : Pfx) : Bool :=
  p.maskLen == (if p.isV6 then 128 else 32)

/-- The /128 destination built by netlink.NewIPNet from an IPv6
endpoint address. -/
def hostRoutePfx (addr : Nat) : Pfx :=
  { addr := addr, maskLen := 128, isV6 := true }

/-- Fixed loopback device name reserved for egress routes
(src/unnamed/part_004). -/
def LoopbackDevice : List Char := "lo-galactic".toList

/-! ## The srv6 package (src/unnamed/part_001 to part_004) -/

/-- Embeds neighborproxy.Add (src/unnamed/part_001): resolves the
per-attachment host device, then adds a neighbor entry for the prefix
address with state NUD_PERMANENT and flag NTF_PROXY. -/
def neighborproxyAdd (st : KernelState) (ip : Nat) (vpc att : List Char) :
    KernelState × Option NlErr :=
  match linkByName st (GenerateInterfaceNameHost vpc att) with
  | .error e => (st, some e)
  | .ok link =>
    neighAdd st
      { linkIndex := link.index, ip := ip, state := NUD_PERMANENT,
        flags := NTF_PROXY }

/-- Embeds neighborproxy.Delete (src/unnamed/part_001): resolves the
per-attachment host device, then deletes the matching neighbor entry;
the netlink result is returned verbatim. -/
def neighborproxyDelete (st : KernelState) (ip : Nat) (vpc att : List Char) :
    KernelState × Option NlErr :=
  match linkByName st (GenerateInterfaceNameHost vpc att) with
  | .error e => (st, some e)
  | .ok link =>
    neighDel st
      { linkIndex := link.index, ip := ip, state := NUD_PERMANENT,
        flags := NTF_PROXY }

/-- Embeds routeingress.Add (src/unnamed/part_003): host device lookup,
VRF table lookup, then RouteReplace of the endpoint /128 with an
End.DT46 seg6local encapsulation pointing at the VRF table. -/
def routeingressAdd (st : KernelState) (ip : Nat) (vpc att : List Char) :
    KernelState × Option NlErr :=
  match linkByName st (GenerateInterfaceNameHost vpc att) with
  | .error e => (st, some e)
  | .ok link =>
    match GetVRFIdForVPC st vpc att with
    | .error e => (st, some e)
    | .ok vrfId =>
      (routeReplace st
        { table := mainTable, dst := hostRoutePfx ip,
          linkIndex := link.index, encap := .seg6local vrfId }, none)

/-- Embeds routeingress.Delete (src/unnamed/part_003): host device
lookup, then RouteDel of the endpoint /128 on that device; the netlink
result is returned verbatim, with no special case for a missing
route. -/
def routeingressDelete (st : KernelState) (ip : Nat) (vpc att : List Char) :
    KernelState × Option NlErr :=
  match linkByName st (GenerateInterfaceNameHost vpc att) with
  | .error e => (st, some e)
  | .ok link =>
    routeDel st
      { table := mainTable, dst := hostRoutePfx ip,
        linkIndex := link.index, encap := .noEncap }

/-- Embeds routeegress.Add (src/unnamed/part_004): loopback device
lookup, VRF table lookup, then RouteReplace of the prefix in the VRF
table with an H.Encaps seg6 encapsulation over the segment list. -/
def routeegressAdd (st : KernelState) (vpc att : List Char) (pfx : Pfx)
    (segments : List Nat) : KernelState × Option NlErr :=
  match linkByName st LoopbackDevice with
  | .error e => (st, some e)
  | .ok link =>
    match GetVRFIdForVPC st vpc att with
    | .error e => (st, some e)
    | .ok vrfId =>
      (routeReplace st
        { table := vrfId, dst := pfx, linkIndex := link.index,
          encap := .seg6encap segments }, none)

/-- Embeds routeegress.Delete (src/unnamed/part_004): loopback device
lookup, VRF table lookup, then RouteDel of the prefix in the VRF table;
the netlink result is returned verbatim, with no special case for a
missing route. -/
def routeegressDelete (st : KernelState) (vpc att : List Char) (pfx : Pfx)
    (segments : List Nat) : KernelState × Option NlErr :=
  match linkByName st LoopbackDevice with
  | .error e => (st, some e)
  | .ok link =>
    match GetVRFIdForVPC st vpc att with
    | .error e => (st, some e)
    | .ok vrfId =>
      routeDel st
        { table := vrfId, dst := pfx, linkIndex := link.index,
          encap := .noEncap }

/-- Domain level classification of the errors produced by the srv6
package; fmt wrapping is modelled by the constructor. -/
inductive ErrItem
  | invalidVpc
  | invalidAtt
  | neighProxyAddFailed (e : NlErr)
  | neighProxyDelFailed (e : NlErr)
  | routeEgressAddFailed (e : NlErr)
  | routeEgressDelFailed (e : NlErr)
  | routeIngressAddFailed (e : NlErr)
  | routeIngressDelFailed (e : NlErr)
deriving DecidableEq

/-- Kernel programming steps attempted by the egress operations, in
execution order. -/
inductive Attempt
  | neighProxyAdd (ip : Nat) (vpc att : List Char)
  | neighProxyDel (ip : Nat) (vpc att : List Char)
  | egressRouteAdd (pfx : Pfx) (vpc att : List Char)
  | egressRouteDel (pfx : Pfx) (vpc att : List Char)
deriving DecidableEq

/-- Error list contributed by one step: empty on success, a singleton
wrapping the netlink error on failure. -/
def errOpt (o : Option NlErr) (wrap : NlErr → ErrItem) : List ErrItem :=
  match o with
  | none => []
  | some e => [wrap e]

/-- Embeds srv6.RouteIngressAdd (src/unnamed/part_002) after textual
parsing of the endpoint: decodes the endpoint, converts both
identifiers to base-62, then runs routeingress.Add. -/
def RouteIngressAdd (st : KernelState) (addr : Nat) :
    KernelState × Option ErrItem :=
  match HexToBase62 (DecodeSRv6Endpoint addr).1 with
  | none => (st, some .invalidVpc)
  | some vpc =>
    match HexToBase62 (DecodeSRv6Endpoint addr).2 with
    | none => (st, some .invalidAtt)
    | some att =>
      match routeingressAdd st addr vpc att with
      | (st1, none) => (st1, none)
      | (st1, some e) => (st1, some (.routeIngressAddFailed e))

/-- Embeds srv6.RouteIngressDel (src/unnamed/part_002) after textual
parsing of the endpoint: decodes the endpoint, converts both
identifiers to base-62, then runs routeingress.Delete. -/
def RouteIngressDel (st : KernelState) (addr : Nat) :
    KernelState × Option ErrItem :=
  match HexToBase62 (DecodeSRv6Endpoint addr).1 with
  | none => (st, some .invalidVpc)
  | some vpc =>
    match HexToBase62 (DecodeSRv6Endpoint addr).2 with
    | none => (st, some .invalidAtt)
    | some att =>
      match routeingressDelete st addr vpc att with
      | (st1, none) => (st1, none)
      | (st1, some e) => (st1, some (.routeIngressDelFailed e))

/-- Embeds srv6.RouteEgressAdd (src/unnamed/part_002) after textual
parsing: decodes the endpoint, converts both identifiers to base-62,
attempts the proxy-neighbor install when the prefix is a host prefix,
then always attempts the egress route install; the step errors are
collected into a list, the model of errors.Join, with the empty list
standing for nil. Also returns the attempted steps in order. -/
def RouteEgressAdd (st : KernelState) (pfx : Pfx) (src : Nat)
    (segments : List Nat) : KernelState × List Attempt × List ErrItem :=
  match HexToBase62 (DecodeSRv6Endpoint src).1 with
  | none => (st, [], [.invalidVpc])
  | some vpc =>
    match HexToBase62 (DecodeSRv6Endpoint src).2 with
    | none => (st, [], [.invalidAtt])
    | some att =>
      let s1 := if IsHost pfx then neighborproxyAdd st pfx.addr vpc att
                else (st, none)
      let a1 : List Attempt := if IsHost pfx then [.neighProxyAdd pfx.addr vpc att]
                else []
      let s2 := routeegressAdd s1.1 vpc att pfx segments
      (s2.1, a1 ++ [.egressRouteAdd pfx vpc att],
        errOpt s1.2 .neighProxyAddFailed ++ errOpt s2.2 .routeEgressAddFailed)

/-- Embeds srv6.RouteEgressDel (src/unnamed/part_002) after textual
parsing: the mirror of RouteEgressAdd with the delete operations, the
same host-prefix test, and the same error collection. -/
def RouteEgressDel (st : KernelState) (pfx : Pfx) (src : Nat)
    (segments : List Nat) : KernelState × List Attempt × List ErrItem :=
  match HexToBase62 (DecodeSRv6Endpoint src).1 with
  | none => (st, [], [.invalidVpc])
  | some vpc =>
    match HexToBase62 (DecodeSRv6Endpoint src).2 with
    | none => (st, [], [.invalidAtt])
    | some att =>
      let s1 := if IsHost pfx then neighborproxyDelete st pfx.addr vpc att
                else (st, none)
      let a1 : List Attempt := if IsHost pfx then [.neighProxyDel pfx.addr vpc att]
                else []
      let s2 := routeegressDelete s1.1 vpc att pfx segments
      (s2.1, a1 ++ [.egressRouteDel pfx vpc att],
        errOpt s1.2 .neighProxyDelFailed ++ errOpt s2.2 .routeEgressDelFailed)

/-! ## Wire envelopes and the local service (src/galactic-agent) -/

/-- Wire envelope of the remote protocol (api/remote protobuf): a
discriminated union; the endpoint travels as IPv6 text, modelled by its
address value. -/
inductive Envelope
  | registerMsg (network : List Char) (srv6Endpoint : Nat)
  | deregisterMsg (network : List Char) (srv6Endpoint : Nat)
  | routeMsg (network : List Char) (srv6Endpoint : Nat)
      (segments : List Nat) (statusAdd : Bool)
deriving DecidableEq

/-- Errors a register or deregister handler can produce, one per failing
step. -/
inductive HandlerErr
  | encodeFailed
  | ingress (e : ErrItem)
  | marshalFailed
deriving DecidableEq

/-- Observable actions of the register and deregister handlers, in
execution order. -/
inductive AgentEvent
  | ingressInstalled (endpoint : Nat)
  | ingressRemoved (endpoint : Nat)
  | sent (env : Envelope)
deriving DecidableEq

/-- Publish loop of the handlers in main.go: for each network in list
order, marshal one envelope and hand it to the remote client via
r.Send; a marshal failure returns immediately with the events so
far. -/
def publishAll (marshal : Envelope → Option (List Nat))
    (mkEnv : List Char → Envelope) (networks : List (List Char))
    (acc : List AgentEvent) : List AgentEvent × Option HandlerErr :=
  match networks with
  | [] => (acc, none)
  | n :: rest =>
    match marshal (mkEnv n) with
    | none => (acc, some .marshalFailed)
    | some _ => publishAll marshal mkEnv rest (acc ++ [.sent (mkEnv n)])

/-- Embeds the RegisterHandler closure of main.go (lines 66-90): encode
the endpoint from the request identifiers, install the ingress
decapsulation route, then publish one Register envelope per network in
list order. proto.Marshal is external and abstracted as a parameter.
The handler returns the new kernel state, its events in order, and its
error, none meaning success. -/
def RegisterHandler (marshal : Envelope → Option (List Nat))
    (base baseLen : Nat) (st : KernelState)
    (vpc att : List Char) (networks : List (List Char)) :
    KernelState × List AgentEvent × Option HandlerErr :=
  match EncodeSRv6Endpoint base baseLen vpc att with
  | none => (st, [], some .encodeFailed)
  | some ep =>
    match RouteIngressAdd st ep with
    | (st1, some e) => (st1, [], some (.ingress e))
    | (st1, none) =>
      let out := publishAll marshal (fun n => .registerMsg n ep) networks
        [AgentEvent.ingressInstalled ep]
      (st1, out.1, out.2)

/-- Embeds the DeregisterHandler closure of main.go (lines 91-115): the
mirror of RegisterHandler with ingress removal and Deregister
envelopes. -/
def DeregisterHandler (marshal : Envelope → Option (List Nat))
    (base baseLen : Nat) (st : KernelState)
    (vpc att : List Char) (networks : List (List Char)) :
    KernelState × List AgentEvent × Option HandlerErr :=
  match EncodeSRv6Endpoint base baseLen vpc att with
  | none => (st, [], some .encodeFailed)
  | some ep =>
    match RouteIngressDel st ep with
    | (st1, some e) => (st1, [], some (.ingress e))
    | (st1, none) =>
      let out := publishAll marshal (fun n => .deregisterMsg n ep) networks
        [AgentEvent.ingressRemoved ep]
      (st1, out.1, out.2)

/-- Reply message of the local service. -/
structure RegisterReply where
  confirmed : Bool
deriving DecidableEq

/-- Embeds Local.Register (api/local/local.go lines 20-25): when the
handler fails, the error is returned on the gRPC error channel and no
reply is built; otherwise the reply carries confirmed true. -/
def LocalRegister (handlerResult : Option HandlerErr) :
    Except HandlerErr RegisterReply :=
  match handlerResult with
  | some e => .error e
  | none => .ok { confirmed := true }

/-- Embeds Local.Deregister (api/local/local.go lines 27-32), identical
in shape to Local.Register. -/
def LocalDeregister (handlerResult : Option HandlerErr) :
    Except HandlerErr RegisterReply :=
  match handlerResult with
  | some e => .error e
  | none => .ok { confirmed := true }

/-! ## Remote client (api/remote/remote.go) -/

/-- Configuration fields of the Remote struct. -/
structure RemoteConfig where
  url : List Char
  clientID : List Char
  username : List Char
  password : List Char
  qos : Nat
  topicRX : List Char
  topicTX : List Char
deriving DecidableEq

/-- Broker client options assembled by Remote.Run. -/
structure ClientOptions where
  brokers : List (List Char)
  clientID : List Char
  username : List Char
  password : List Char
  cleanSession : Bool
deriving DecidableEq

/-- Embeds the option construction of Remote.Run (remote.go lines
27-38): broker URL, the identifier and credentials each set only when
non-empty, and on line 38 the clean-session flag, true exactly when the
identifier is empty or the QoS is zero. -/
def buildOpts (r : RemoteConfig) : ClientOptions :=
  { brokers := [r.url]
    clientID := if r.clientID == [] then [] else r.clientID
    username := if r.username == [] then [] else r.username
    password := if r.password == [] then [] else r.password
    cleanSession := r.clientID == [] || r.qos == 0 }

/-- Result of the subscribe token wait in the OnConnect callback. -/
inductive SubResult
  | subOk
  | subTimeout
  | subErrored
deriving DecidableEq

/-- Actions the OnConnect callback can take. -/
inductive ConnAction
  | subscribeAttempt (topic : List Char) (qos : Nat)
  | logSubscribeError
  | logSubscribed (topic : List Char)
  | disconnect
  | reconnect
deriving DecidableEq

/-- Embeds the OnConnect callback of Remote.Run (remote.go lines 40-57):
it subscribes to the receive topic; when the wait times out or the
token holds an error it logs and returns, otherwise it logs the
subscription. The list is everything the callback does. -/
def onConnect (topicRX : List Char) (qos : Nat) (sub : SubResult) :
    List ConnAction :=
  ConnAction.subscribeAttempt topicRX qos ::
    (match sub with
     | .subOk => [.logSubscribed topicRX]
     | .subTimeout => [.logSubscribeError]
     | .subErrored => [.logSubscribeError])

/-- Handle to a constructed broker client. -/
structure MqttClient where
  handle : Nat
deriving DecidableEq

/-- The private client field of the Remote struct, an interface value in
Go; none is the nil zero value before Run stores a client at line 59. -/
def initialClient : Option MqttClient := none

/-- Outcome of Remote.Send. -/
inductive SendOutcome
  | nilPanic
  | published (topic : List Char) (qos : Nat) (payload : List Nat)
deriving DecidableEq

/-- Embeds Remote.Send (remote.go lines 73-76): Publish on the stored
client with no nil guard; in Go a method call through a nil interface
value panics, modelled by the nilPanic outcome when the field still
holds its zero value. -/
def RemoteSend (client : Option MqttClient) (topicTX : List Char)
    (qos : Nat) (payload : List Nat) : SendOutcome :=
  match client with
  | none => .nilPanic
  | some _ => .published topicTX qos payload

/-! ## Orchestrator exit path (main.go lines 55-166) -/

/-- A runtime error from one of the two top-level tasks. -/
structure TaskErr where
  msg : List Char
deriving DecidableEq

/-- Models golang.org/x/sync errgroup.WithContext with two g.Go tasks:
Wait returns the first non-nil task error, and the derived context is
cancelled as soon as any task returns non-nil, cancelling the sibling.
The Bool records whether the sibling context was cancelled by an
error before normal shutdown. -/
def errgroupWithContext (resLocal resRemote : Option TaskErr) :
    Option TaskErr × Bool :=
  (if resLocal.isSome then resLocal else resRemote,
    resLocal.isSome || resRemote.isSome)

/-- Log lines of the Run body relevant to the exit path. -/
inductive MainLog
  | fatalInvalidEndpoint
  | errorLogged (e : TaskErr)
  | shutdownLogged
deriving DecidableEq

/-- Embeds the Run body and exit path of main (main.go lines 55-166):
the startup encode check aborts via log.Fatalf with exit status 1;
otherwise, after the task group finishes, an error returned by Wait is
only logged and Run returns normally, so the process exit status is
0. -/
def mainRun (encodeCheckOk : Bool) (resLocal resRemote : Option TaskErr) :
    Nat × List MainLog :=
  if encodeCheckOk = false then (1, [.fatalInvalidEndpoint])
  else
    match (errgroupWithContext resLocal resRemote).1 with
    | some e => (0, [.errorLogged e, .shutdownLogged])
    | none => (0, [.shutdownLogged])

/-! ## Claims about the local error channel, exit path, session flag,
subscribe failure and nil send -/

/-- C4 counterexample: at a concrete failing step, Local.Register puts
the error on the gRPC error channel and produces no reply message at
all, so the claim that a reply with confirmed false is returned is
false at this input. -/
theorem c4_domain_error_counterexample :
    ¬ ∃ reply : RegisterReply,
      LocalRegister (some HandlerErr.encodeFailed) = .ok reply := by
  rintro ⟨reply, h⟩
  simp [LocalRegister] at h

/-- C4 amended: when any step of a Register or Deregister request fails,
the local service returns the handler error on the RPC framework error
channel and produces no reply message; a reply is produced only on
success and then always carries confirmed true. -/
theorem c4_error_channel (h : Option HandlerErr) :
    (∀ e, h = some e →
      LocalRegister h = .error e ∧ LocalDeregister h = .error e) ∧
      (h = none →
        LocalRegister h = .ok { confirmed := true } ∧
        LocalDeregister h = .ok { confirmed := true }) ∧
      (∀ reply, LocalRegister h = .ok reply → reply.confirmed = true) := by
  refine ⟨?_, ?_, ?_⟩
  · intro e he
    rw [he]
    exact ⟨rfl, rfl⟩
  · intro he
    rw [he]
    exact ⟨rfl, rfl⟩
  · intro reply hr
    cases h with
    | some e => simp [LocalRegister] at hr
    | none =>
      simp only [LocalRegister] at hr
      injection hr with hr2
      rw [← hr2]

/-- C4 witness: the amended behavior at concrete inputs, a failing
encode step and a successful run. -/
theorem c4_error_channel_witness :
    LocalRegister (some HandlerErr.encodeFailed) =
        .error HandlerErr.encodeFailed ∧
      LocalRegister none = .ok { confirmed := true } ∧
      ({ confirmed := true } : RegisterReply).confirmed = true :=
  ⟨((c4_error_channel (some HandlerErr.encodeFailed)).1
      HandlerErr.encodeFailed rfl).1,
    ((c4_error_channel none).2.1 rfl).1,
    (c4_error_channel none).2.2 { confirmed := true }
      ((c4_error_channel none).2.1 rfl).1⟩

/-- C5 counterexample: with the startup check passing and the local task
returning an unrecoverable error, the process still exits with status
0, so the claim of a non-zero exit on a task error is false at this
input. -/
theorem c5_task_error_exit_counterexample :
    (mainRun true (some { msg := "local task failed".toList }) none).1 = 0 := by
  rfl

/-- C5 amended: the exit status is 0 both on clean shutdown and when a
top-level task returns an unrecoverable error, which is only logged;
a non-zero status arises only from the fatal startup encode check; a
runtime error in either task still cancels the sibling task via the
group context. -/
theorem c5_exit_status (encodeOk : Bool) (rl rr : Option TaskErr) :
    ((mainRun encodeOk rl rr).1 = 0 ↔ encodeOk = true) ∧
      (∀ e, encodeOk = true → (errgroupWithContext rl rr).1 = some e →
        (mainRun encodeOk rl rr).2 = [.errorLogged e, .shutdownLogged]) ∧
      ((rl ≠ none ∨ rr ≠ none) → (errgroupWithContext rl rr).2 = true) := by
  refine ⟨?_, ?_, ?_⟩
  · cases encodeOk with
    | false => simp [mainRun]
    | true =>
      cases hw : (errgroupWithContext rl rr).1 with
      | some e => simp [mainRun, hw]
      | none => simp [mainRun, hw]
  · intro e hok hw
    rw [hok]
    simp [mainRun, hw]
  · intro hne
    cases rl with
    | some e => simp [errgroupWithContext]
    | none =>
      cases rr with
      | some e => simp [errgroupWithContext]
      | none => simp at hne

/-- C5 witness: at a concrete task error the exit status is 0, the error
is only logged, and the sibling context is cancelled. -/
theorem c5_exit_status_witness :
    ((mainRun true (some { msg := "x".toList }) none).1 = 0 ↔ true = true) ∧
      (mainRun true (some { msg := "x".toList }) none).2 =
        [.errorLogged { msg := "x".toList }, .shutdownLogged] ∧
      (errgroupWithContext (some { msg := "x".toList })
        (none : Option TaskErr)).2 = true :=
  ⟨(c5_exit_status true (some { msg := "x".toList }) none).1,
    (c5_exit_status true (some { msg := "x".toList }) none).2.1
      { msg := "x".toList } rfl rfl,
    (c5_exit_status true (some { msg := "x".toList }) none).2.2
      (Or.inl (by simp))⟩

/-- C8: the broker session is persistent, that is the clean-session flag
assembled by Remote.Run is false, exactly when the configured client
identifier is non-empty and the QoS is at least 1. -/
theorem c8_persistent_session (r : RemoteConfig) :
    (buildOpts r).cleanSession = false ↔ (r.clientID ≠ [] ∧ 1 ≤ r.qos) := by
  show (r.clientID == [] || r.qos == 0) = false ↔ _
  simp only [Bool.or_eq_false_iff, beq_eq_false_iff_ne, ne_eq]
  constructor
  · rintro ⟨h1, h2⟩
    exact ⟨h1, by omega⟩
  · rintro ⟨h1, h2⟩
    exact ⟨h1, by omega⟩

/-- C9 counterexample: at a concrete topic and QoS, a failed subscribe
leaves the OnConnect callback neither disconnecting nor reconnecting,
so the claim that the client disconnects and retries is false at this
input. -/
theorem c9_subscribe_failure_counterexample :
    ConnAction.disconnect ∉ onConnect "rx".toList 1 .subErrored ∧
      ConnAction.reconnect ∉ onConnect "rx".toList 1 .subErrored := by
  decide

/-- C9 amended: when the subscribe wait after a successful connect times
out or reports an error, the callback only logs the failure and
returns; it neither disconnects from the broker nor retries, leaving
the client connected without a subscription. -/
theorem c9_subscribe_failure_logs_only (t : List Char) (q : Nat)
    (sub : SubResult) (h : sub ≠ .subOk) :
    onConnect t q sub = [.subscribeAttempt t q, .logSubscribeError] ∧
      ConnAction.disconnect ∉ onConnect t q sub ∧
      ConnAction.reconnect ∉ onConnect t q sub := by
  cases sub with
  | subOk => exact absurd rfl h
  | subTimeout => refine ⟨rfl, ?_, ?_⟩ <;> simp [onConnect]
  | subErrored => refine ⟨rfl, ?_, ?_⟩ <;> simp [onConnect]

/-- C9 witness: the amended behavior at a concrete topic, QoS and
timeout outcome. -/
theorem c9_subscribe_failure_logs_only_witness :
    onConnect "rx".toList 1 .subTimeout =
        [.subscribeAttempt "rx".toList 1, .logSubscribeError] ∧
      ConnAction.disconnect ∉ onConnect "rx".toList 1 .subTimeout ∧
      ConnAction.reconnect ∉ onConnect "rx".toList 1 .subTimeout :=
  c9_subscribe_failure_logs_only "rx".toList 1 .subTimeout (by decide)

/-- C10: Remote.Send invoked while the client field still holds its Go
zero value calls Publish through a nil interface and panics rather than
failing gracefully; once Run has stored a client the same call
publishes. -/
theorem c10_send_before_run_panics (t : List Char) (q : Nat) (p : List Nat) :
    RemoteSend initialClient t q p = .nilPanic ∧
      ∀ c : MqttClient, RemoteSend (some c) t q p = .published t q p :=
  ⟨rfl, fun _ => rfl⟩

/-! ## Claims about the register pipeline and the kernel programmer -/

theorem publishAll_events (marshal : Envelope → Option (List Nat))
    (mkEnv : List Char → Envelope) :
    ∀ (networks : List (List Char)) (acc : List AgentEvent),
      (publishAll marshal mkEnv networks acc).2 = none →
      (publishAll marshal mkEnv networks acc).1 =
        acc ++ networks.map (fun n => .sent (mkEnv n)) := by
  intro networks
  induction networks with
  | nil =>
    intro acc _
    simp [publishAll]
  | cons n rest ih =>
    intro acc h
    cases hm : marshal (mkEnv n) with
    | none =>
      simp only [publishAll, hm] at h
      exact Option.noConfusion h
    | some payload =>
      simp only [publishAll, hm] at h ⊢
      exact (ih _ h).trans (by simp)

/-- C2: a Register request is served by encoding the endpoint from the
request identifiers, installing the ingress decapsulation route, then
handing one Register envelope carrying the network and the endpoint to
the remote client for each network in list order; the handler succeeds,
and with it the confirmed reply is produced, only when the ingress
install succeeded and every publish has been handed off. -/
theorem c2_register_order (marshal : Envelope → Option (List Nat))
    (base baseLen : Nat) (st : KernelState) (vpc att : List Char)
    (networks : List (List Char))
    (h : (RegisterHandler marshal base baseLen st vpc att networks).2.2 = none) :
    ∃ ep, EncodeSRv6Endpoint base baseLen vpc att = some ep ∧
      (RouteIngressAdd st ep).2 = none ∧
      (RegisterHandler marshal base baseLen st vpc att networks).2.1 =
        AgentEvent.ingressInstalled ep ::
          networks.map (fun n => .sent (.registerMsg n ep)) ∧
      LocalRegister
          (RegisterHandler marshal base baseLen st vpc att networks).2.2 =
        .ok { confirmed := true } := by
  cases he : EncodeSRv6Endpoint base baseLen vpc att with
  | none =>
    simp only [RegisterHandler, he] at h
    exact Option.noConfusion h
  | some ep =>
    rcases hri : RouteIngressAdd st ep with ⟨st1, oe⟩
    cases oe with
    | some e =>
      simp only [RegisterHandler, he, hri] at h
      exact Option.noConfusion h
    | none =>
      refine ⟨ep, rfl, by rw [hri], ?_, ?_⟩
      · simp only [RegisterHandler, he, hri] at h ⊢
        rw [publishAll_events marshal (fun n => .registerMsg n ep) networks
          [AgentEvent.ingressInstalled ep] h]
        simp
      · rw [h]
        rfl

/-- C2 witness: a concrete register request on a kernel state holding
the derived host device and VRF table, with one network. -/
theorem c2_register_order_witness :
    ∃ ep, EncodeSRv6Endpoint (64512 * 2 ^ 112) 56
        ['0', '0', '0', '0', '0', '0', '0', '0', '0', '0', '0', '1']
        ['0', '0', '0', '1'] = some ep ∧
      (RouteIngressAdd
        { links := [{ name := "G000000001001H".toList, index := 3 }],
          routes := [], neighs := [],
          vrfTables := [("G000000001001V".toList, 100)] } ep).2 = none ∧
      (RegisterHandler (fun _ => some []) (64512 * 2 ^ 112) 56
        { links := [{ name := "G000000001001H".toList, index := 3 }],
          routes := [], neighs := [],
          vrfTables := [("G000000001001V".toList, 100)] }
        ['0', '0', '0', '0', '0', '0', '0', '0', '0', '0', '0', '1']
        ['0', '0', '0', '1'] ["10.1.1.0/24".toList]).2.1 =
        AgentEvent.ingressInstalled ep ::
          ["10.1.1.0/24".toList].map (fun n => .sent (.registerMsg n ep)) ∧
      LocalRegister
          (RegisterHandler (fun _ => some []) (64512 * 2 ^ 112) 56
            { links := [{ name := "G000000001001H".toList, index := 3 }],
              routes := [], neighs := [],
              vrfTables := [("G000000001001V".toList, 100)] }
            ['0', '0', '0', '0', '0', '0', '0', '0', '0', '0', '0', '1']
            ['0', '0', '0', '1'] ["10.1.1.0/24".toList]).2.2 =
        .ok { confirmed := true } :=
  c2_register_order (fun _ => some []) (64512 * 2 ^ 112) 56
    { links := [{ name := "G000000001001H".toList, index := 3 }],
      routes := [], neighs := [],
      vrfTables := [("G000000001001V".toList, 100)] }
    ['0', '0', '0', '0', '0', '0', '0', '0', '0', '0', '0', '1']
    ['0', '0', '0', '1'] ["10.1.1.0/24".toList] (by decide)

/-- Absence of a route with the given table and destination in the
kernel state. -/
def routeAbsent (st : KernelState) (table : Nat) (dst : Pfx) : Prop :=
  ∀ s ∈ st.routes, (table == s.table && dst == s.dst) = false

/-- Absence of a neighbor entry on the given link for the given
address. -/
def neighAbsent (st : KernelState) (idx ip : Nat) : Prop :=
  ∀ m ∈ st.neighs, (m.linkIndex == idx && m.ip == ip) = false

theorem routeDel_of_absent (st : KernelState) (r : Route)
    (h : ∀ s ∈ st.routes, sameKey r s = false) :
    routeDel st r = (st, some .esrch) := by
  have hany : st.routes.any (fun s => sameKey r s) = false := by
    rw [List.any_eq_false]
    intro s hs
    simp [h s hs]
  simp [routeDel, hany]

theorem neighDel_of_absent (st : KernelState) (n : Neigh)
    (h : ∀ m ∈ st.neighs, (m.linkIndex == n.linkIndex && m.ip == n.ip) = false) :
    neighDel st n = (st, some .enoent) := by
  have hany : st.neighs.any
      (fun m => m.linkIndex == n.linkIndex && m.ip == n.ip) = false := by
    rw [List.any_eq_false]
    intro m hm
    simp [h m hm]
  simp [neighDel, hany]

/-- C3 counterexample: a concrete kernel state holding the
per-attachment host device but not the target route; deleting the
absent ingress route returns the kernel ESRCH error rather than
success, so the fail-soft claim is false at this input. -/
theorem c3_absent_delete_counterexample :
    (routeingressDelete
      { links := [{ name := GenerateInterfaceNameHost ['1'] ['1'], index := 7 }],
        routes := [], neighs := [], vrfTables := [] }
      65537 ['1'] ['1']).2 = some .esrch := by
  decide

/-- C3 amended: each delete operation returns the kernel netlink result
verbatim; when the target entry is absent the kernel reports an error,
ESRCH for routes and ENOENT for neighbor entries, and the operation
returns that error instead of success: for the ingress endpoint route
delete, the egress VRF-table route delete, and the proxy-neighbor
delete alike. -/
theorem c3_absent_delete_errors (st : KernelState) (ip : Nat)
    (vpc att : List Char) (pfx : Pfx) (segs : List Nat)
    (link loLink : Link) (vrfId : Nat) :
    (linkByName st (GenerateInterfaceNameHost vpc att) = .ok link →
      routeAbsent st mainTable (hostRoutePfx ip) →
      routeingressDelete st ip vpc att = (st, some .esrch)) ∧
      (linkByName st LoopbackDevice = .ok loLink →
        GetVRFIdForVPC st vpc att = .ok vrfId →
        routeAbsent st vrfId pfx →
        routeegressDelete st vpc att pfx segs = (st, some .esrch)) ∧
      (linkByName st (GenerateInterfaceNameHost vpc att) = .ok link →
        neighAbsent st link.index ip →
        neighborproxyDelete st ip vpc att = (st, some .enoent)) := by
  refine ⟨?_, ?_, ?_⟩
  · intro hlink habs
    simp only [routeingressDelete, hlink]
    apply routeDel_of_absent
    intro s hs
    exact habs s hs
  · intro hlo hvrf habs
    simp only [routeegressDelete, hlo, hvrf]
    apply routeDel_of_absent
    intro s hs
    exact habs s hs
  · intro hlink habs
    simp only [neighborproxyDelete, hlink]
    apply neighDel_of_absent
    intro m hm
    exact habs m hm

/-- C3 witness: a concrete state holding the host device, the loopback
device and the VRF table but none of the target entries; all three
deletes return the kernel error. -/
theorem c3_absent_delete_errors_witness :
    (routeingressDelete
        { links := [{ name := GenerateInterfaceNameHost ['1'] ['1'], index := 7 },
            { name := LoopbackDevice, index := 2 }],
          routes := [], neighs := [],
          vrfTables := [(GenerateInterfaceNameVRF ['1'] ['1'], 100)] }
        65537 ['1'] ['1'] =
      ({ links := [{ name := GenerateInterfaceNameHost ['1'] ['1'], index := 7 },
            { name := LoopbackDevice, index := 2 }],
          routes := [], neighs := [],
          vrfTables := [(GenerateInterfaceNameVRF ['1'] ['1'], 100)] },
        some .esrch)) ∧
      (routeegressDelete
          { links := [{ name := GenerateInterfaceNameHost ['1'] ['1'], index := 7 },
              { name := LoopbackDevice, index := 2 }],
            routes := [], neighs := [],
            vrfTables := [(GenerateInterfaceNameVRF ['1'] ['1'], 100)] }
          ['1'] ['1'] { addr := 5, maskLen := 128, isV6 := true } [] =
        ({ links := [{ name := GenerateInterfaceNameHost ['1'] ['1'], index := 7 },
              { name := LoopbackDevice, index := 2 }],
            routes := [], neighs := [],
            vrfTables := [(GenerateInterfaceNameVRF ['1'] ['1'], 100)] },
          some .esrch)) ∧
      (neighborproxyDelete
          { links := [{ name := GenerateInterfaceNameHost ['1'] ['1'], index := 7 },
              { name := LoopbackDevice, index := 2 }],
            routes := [], neighs := [],
            vrfTables := [(GenerateInterfaceNameVRF ['1'] ['1'], 100)] }
          65537 ['1'] ['1'] =
        ({ links := [{ name := GenerateInterfaceNameHost ['1'] ['1'], index := 7 },
              { name := LoopbackDevice, index := 2 }],
            routes := [], neighs := [],
            vrfTables := [(GenerateInterfaceNameVRF ['1'] ['1'], 100)] },
          some .enoent)) :=
  ⟨(c3_absent_delete_errors _ 65537 ['1'] ['1']
      { addr := 5, maskLen := 128, isV6 := true } []
      { name := GenerateInterfaceNameHost ['1'] ['1'], index := 7 }
      { name := LoopbackDevice, index := 2 } 100).1
      (by rfl) (by intro s hs; simp at hs),
    (c3_absent_delete_errors _ 65537 ['1'] ['1']
      { addr := 5, maskLen := 128, isV6 := true } []
      { name := GenerateInterfaceNameHost ['1'] ['1'], index := 7 }
      { name := LoopbackDevice, index := 2 } 100).2.1
      (by rfl) (by rfl) (by intro s hs; simp at hs),
    (c3_absent_delete_errors _ 65537 ['1'] ['1']
      { addr := 5, maskLen := 128, isV6 := true } []
      { name := GenerateInterfaceNameHost ['1'] ['1'], index := 7 }
      { name := LoopbackDevice, index := 2 } 100).2.2
      (by rfl) (by intro m hm; simp at hm)⟩

theorem routeegressAdd_neighs (st : KernelState) (vpc att : List Char)
    (pfx : Pfx) (segs : List Nat) :
    (routeegressAdd st vpc att pfx segs).1.neighs = st.neighs := by
  cases h1 : linkByName st LoopbackDevice with
  | error e => simp [routeegressAdd, h1]
  | ok link =>
    cases h2 : GetVRFIdForVPC st vpc att with
    | error e => simp [routeegressAdd, h1, h2]
    | ok vrfId => simp [routeegressAdd, h1, h2, routeReplace]

theorem routeegressDelete_neighs (st : KernelState) (vpc att : List Char)
    (pfx : Pfx) (segs : List Nat) :
    (routeegressDelete st vpc att pfx segs).1.neighs = st.neighs := by
  cases h1 : linkByName st LoopbackDevice with
  | error e => simp [routeegressDelete, h1]
  | ok link =>
    cases h2 : GetVRFIdForVPC st vpc att with
    | error e => simp [routeegressDelete, h1, h2]
    | ok vrfId =>
      simp only [routeegressDelete, h1, h2]
      unfold routeDel
      split <;> rfl

theorem RouteEgressAdd_host_eq (st : KernelState) (pfx : Pfx) (src : Nat)
    (segs : List Nat) (vpc att : List Char)
    (hvpc : HexToBase62 (DecodeSRv6Endpoint src).1 = some vpc)
    (hatt : HexToBase62 (DecodeSRv6Endpoint src).2 = some att)
    (hh : IsHost pfx = true) :
    RouteEgressAdd st pfx src segs =
      ((routeegressAdd (neighborproxyAdd st pfx.addr vpc att).1 vpc att pfx segs).1,
        [.neighProxyAdd pfx.addr vpc att, .egressRouteAdd pfx vpc att],
        errOpt (neighborproxyAdd st pfx.addr vpc att).2 .neighProxyAddFailed ++
          errOpt (routeegressAdd (neighborproxyAdd st pfx.addr vpc att).1
            vpc att pfx segs).2 .routeEgressAddFailed) := by
  unfold RouteEgressAdd
  rw [hvpc, hatt, hh]
  rfl

theorem RouteEgressAdd_nonhost_eq (st : KernelState) (pfx : Pfx) (src : Nat)
    (segs : List Nat) (vpc att : List Char)
    (hvpc : HexToBase62 (DecodeSRv6Endpoint src).1 = some vpc)
    (hatt : HexToBase62 (DecodeSRv6Endpoint src).2 = some att)
    (hh : IsHost pfx = false) :
    RouteEgressAdd st pfx src segs =
      ((routeegressAdd st vpc att pfx segs).1,
        [.egressRouteAdd pfx vpc att],
        errOpt (routeegressAdd st vpc att pfx segs).2 .routeEgressAddFailed) := by
  unfold RouteEgressAdd
  rw [hvpc, hatt, hh]
  rfl

theorem RouteEgressDel_host_eq (st : KernelState) (pfx : Pfx) (src : Nat)
    (segs : List Nat) (vpc att : List Char)
    (hvpc : HexToBase62 (DecodeSRv6Endpoint src).1 = some vpc)
    (hatt : HexToBase62 (DecodeSRv6Endpoint src).2 = some att)
    (hh : IsHost pfx = true) :
    RouteEgressDel st pfx src segs =
      ((routeegressDelete (neighborproxyDelete st pfx.addr vpc att).1 vpc att pfx segs).1,
        [.neighProxyDel pfx.addr vpc att, .egressRouteDel pfx vpc att],
        errOpt (neighborproxyDelete st pfx.addr vpc att).2 .neighProxyDelFailed ++
          errOpt (routeegressDelete (neighborproxyDelete st pfx.addr vpc att).1
            vpc att pfx segs).2 .routeEgressDelFailed) := by
  unfold RouteEgressDel
  rw [hvpc, hatt, hh]
  rfl

/-- C6: after EgressAdd, with the per-attachment host device present and
no prior entry for the prefix address, the permanent proxy-neighbor
entry for that address on that device is present in the kernel state
exactly when the prefix is a host prefix, and a non-host prefix leaves
the neighbor table untouched. -/
theorem c6_host_proxy_neighbor (st : KernelState) (pfx : Pfx) (src : Nat)
    (segs : List Nat) (vpc att : List Char) (link : Link)
    (hvpc : HexToBase62 (DecodeSRv6Endpoint src).1 = some vpc)
    (hatt : HexToBase62 (DecodeSRv6Endpoint src).2 = some att)
    (hlink : linkByName st (GenerateInterfaceNameHost vpc att) = .ok link)
    (habs : neighAbsent st link.index pfx.addr) :
    (({ linkIndex := link.index, ip := pfx.addr, state := NUD_PERMANENT,
          flags := NTF_PROXY } : Neigh) ∈
        (RouteEgressAdd st pfx src segs).1.neighs ↔ IsHost pfx = true) ∧
      (IsHost pfx = false →
        (RouteEgressAdd st pfx src segs).1.neighs = st.neighs) := by
  have hany : st.neighs.any
      (fun m => m.linkIndex == link.index && m.ip == pfx.addr) = false := by
    rw [List.any_eq_false]
    intro m hm
    simp [habs m hm]
  cases hh : IsHost pfx with
  | true =>
    have hstep : (neighborproxyAdd st pfx.addr vpc att).1 =
        { st with neighs :=
          { linkIndex := link.index, ip := pfx.addr, state := NUD_PERMANENT,
            flags := NTF_PROXY } :: st.neighs } := by
      simp [neighborproxyAdd, hlink, neighAdd, hany]
    have hn : (RouteEgressAdd st pfx src segs).1.neighs =
        { linkIndex := link.index, ip := pfx.addr, state := NUD_PERMANENT,
          flags := NTF_PROXY } :: st.neighs := by
      rw [RouteEgressAdd_host_eq st pfx src segs vpc att hvpc hatt hh]
      show (routeegressAdd (neighborproxyAdd st pfx.addr vpc att).1
        vpc att pfx segs).1.neighs = _
      rw [routeegressAdd_neighs, hstep]
    refine ⟨?_, ?_⟩
    · rw [hn]
      simp
    · intro hfalse
      exact Bool.noConfusion hfalse
  | false =>
    have hn : (RouteEgressAdd st pfx src segs).1.neighs = st.neighs := by
      rw [RouteEgressAdd_nonhost_eq st pfx src segs vpc att hvpc hatt hh]
      exact routeegressAdd_neighs st vpc att pfx segs
    refine ⟨?_, fun _ => hn⟩
    rw [hn]
    constructor
    · intro hmem
      have h2 := habs _ hmem
      simp at h2
    · intro ht
      exact Bool.noConfusion ht

/-- C6 witness: a host prefix, 192.168.2.5/32, on a concrete state with
the host device present installs the permanent proxy neighbor. -/
theorem c6_host_proxy_neighbor_witness :
    (({ linkIndex := 7, ip := 3232236037, state := NUD_PERMANENT,
          flags := NTF_PROXY } : Neigh) ∈
        (RouteEgressAdd
          { links := [{ name := GenerateInterfaceNameHost ['1'] ['1'], index := 7 }],
            routes := [], neighs := [],
            vrfTables := [(GenerateInterfaceNameVRF ['1'] ['1'], 100)] }
          { addr := 3232236037, maskLen := 32, isV6 := false }
          (64512 * 2 ^ 112 + 65537) []).1.neighs ↔
        IsHost { addr := 3232236037, maskLen := 32, isV6 := false } = true) ∧
      (IsHost { addr := 3232236037, maskLen := 32, isV6 := false } = false →
        (RouteEgressAdd
          { links := [{ name := GenerateInterfaceNameHost ['1'] ['1'], index := 7 }],
            routes := [], neighs := [],
            vrfTables := [(GenerateInterfaceNameVRF ['1'] ['1'], 100)] }
          { addr := 3232236037, maskLen := 32, isV6 := false }
          (64512 * 2 ^ 112 + 65537) []).1.neighs = ([] : List Neigh)) :=
  c6_host_proxy_neighbor
    { links := [{ name := GenerateInterfaceNameHost ['1'] ['1'], index := 7 }],
      routes := [], neighs := [],
      vrfTables := [(GenerateInterfaceNameVRF ['1'] ['1'], 100)] }
    { addr := 3232236037, maskLen := 32, isV6 := false }
    (64512 * 2 ^ 112 + 65537) [] ['1'] ['1']
    { name := GenerateInterfaceNameHost ['1'] ['1'], index := 7 }
    (by decide) (by decide) (by rfl) (by intro m hm; simp at hm)

theorem c7_egress_error_union (st : KernelState) (pfx : Pfx) (src : Nat)
    (segs : List Nat) (vpc att : List Char)
    (hvpc : HexToBase62 (DecodeSRv6Endpoint src).1 = some vpc)
    (hatt : HexToBase62 (DecodeSRv6Endpoint src).2 = some att)
    (hh : IsHost pfx = true) :
    (RouteEgressAdd st pfx src segs).2.1 =
        [.neighProxyAdd pfx.addr vpc att, .egressRouteAdd pfx vpc att] ∧
      (RouteEgressAdd st pfx src segs).2.2 =
        errOpt (neighborproxyAdd st pfx.addr vpc att).2 .neighProxyAddFailed ++
          errOpt (routeegressAdd (neighborproxyAdd st pfx.addr vpc att).1
            vpc att pfx segs).2 .routeEgressAddFailed ∧
      (RouteEgressDel st pfx src segs).2.1 =
        [.neighProxyDel pfx.addr vpc att, .egressRouteDel pfx vpc att] ∧
      (RouteEgressDel st pfx src segs).2.2 =
        errOpt (neighborproxyDelete st pfx.addr vpc att).2 .neighProxyDelFailed ++
          errOpt (routeegressDelete (neighborproxyDelete st pfx.addr vpc att).1
            vpc att pfx segs).2 .routeEgressDelFailed := by
  rw [RouteEgressAdd_host_eq st pfx src segs vpc att hvpc hatt hh,
    RouteEgressDel_host_eq st pfx src segs vpc att hvpc hatt hh]
  exact ⟨rfl, rfl, rfl, rfl⟩

/-- C7 witness: a host prefix on the empty kernel state, where both the
neighbor step and the route step fail with a missing device, shows both
attempts and both errors collected. -/
theorem c7_egress_error_union_witness :
    (RouteEgressAdd { links := [], routes := [], neighs := [], vrfTables := [] }
          { addr := 3232236037, maskLen := 32, isV6 := false }
          (64512 * 2 ^ 112 + 65537) []).2.1 =
        [.neighProxyAdd 3232236037 ['1'] ['1'],
          .egressRouteAdd { addr := 3232236037, maskLen := 32, isV6 := false }
            ['1'] ['1']] ∧
      (RouteEgressAdd { links := [], routes := [], neighs := [], vrfTables := [] }
          { addr := 3232236037, maskLen := 32, isV6 := false }
          (64512 * 2 ^ 112 + 65537) []).2.2 =
        errOpt (neighborproxyAdd
            { links := [], routes := [], neighs := [], vrfTables := [] }
            3232236037 ['1'] ['1']).2 .neighProxyAddFailed ++
          errOpt (routeegressAdd (neighborproxyAdd
              { links := [], routes := [], neighs := [], vrfTables := [] }
              3232236037 ['1'] ['1']).1 ['1'] ['1']
            { addr := 3232236037, maskLen := 32, isV6 := false } []).2
            .routeEgressAddFailed ∧
      (RouteEgressDel { links := [], routes := [], neighs := [], vrfTables := [] }
          { addr := 3232236037, maskLen := 32, isV6 := false }
          (64512 * 2 ^ 112 + 65537) []).2.1 =
        [.neighProxyDel 3232236037 ['1'] ['1'],
          .egressRouteDel { addr := 3232236037, maskLen := 32, isV6 := false }
            ['1'] ['1']] ∧
      (RouteEgressDel { links := [], routes := [], neighs := [], vrfTables := [] }
          { addr := 3232236037, maskLen := 32, isV6 := false }
          (64512 * 2 ^ 112 + 65537) []).2.2 =
        errOpt (neighborproxyDelete
            { links := [], routes := [], neighs := [], vrfTables := [] }
            3232236037 ['1'] ['1']).2 .neighProxyDelFailed ++
          errOpt (routeegressDelete (neighborproxyDelete
              { links := [], routes := [], neighs := [], vrfTables := [] }
              3232236037 ['1'] ['1']).1 ['1'] ['1']
            { addr := 3232236037, maskLen := 32, isV6 := false } []).2
            .routeEgressDelFailed :=
  c7_egress_error_union
    { links := [], routes := [], neighs := [], vrfTables := [] }
    { addr := 3232236037, maskLen := 32, isV6 := false }
    (64512 * 2 ^ 112 + 65537) [] ['1'] ['1']
    (by decide) (by decide) (by decide)

end Galactic
